import Mathlib

/-!
Verification development for the arc-flash analysis repository
(`ArcFlash/Python GUI Framework` plus the DER registry in `exclude/der_json.py`).

The Python sources are shallowly embedded:
* numeric floats become `ℚ` where the code is exact arithmetic and comparisons
  (loaders, PPE thresholds, DER records), and `ℝ` where the code computes with
  `log10` and real powers (the IEEE 1584 formulas);
* every `raise` site becomes a constructor of the structured error type `Err`,
  which also records (`Err.pyClass`) the builtin Python exception class the
  site raises;
* Python dicts become insertion-ordered association lists; fallible code
  returns `Except Err`.
-/

/-- Structured errors: one constructor per raise site (or builtin failure)
reachable in the embedded code, carrying exactly the data interpolated into
the corresponding Python message. -/
inductive Err where
  /-- csv_loader: `Bus/Line/Transformer row missing required fields: ...`. -/
  | missingFields (rowType : String) (missing : List String)
  /-- csv_loader: the header has no `type` column. -/
  | noTypeColumn
  /-- csv_loader: `Unknown row type ... in CSV.` -/
  | unknownRowType (t : String)
  /-- csv_loader / json_loader: `Duplicate bus_id/line_id/tx_id ...`; `src` is
  the wording tag (`CSV` or `JSON`) of the raise site. -/
  | dupId (src : String) (what : String) (id : String)
  /-- Builtin `float()` failing on a malformed string (ValueError). -/
  | floatParse (s : String)
  /-- Builtin `float()` or an attribute access on a value of the wrong type
  (TypeError). -/
  | badType (what : String)
  /-- core.validate: `Line ... references unknown from_bus ...`. -/
  | lineFromMissing (line_id : String) (from_bus : String)
  /-- core.validate: `Line ... references unknown to_bus ...`. -/
  | lineToMissing (line_id : String) (to_bus : String)
  /-- core.validate: `Transformer ... references unknown primary_bus ...`. -/
  | txPrimaryMissing (tx_id : String) (primary_bus : String)
  /-- core.validate: `Transformer ... references unknown secondary_bus ...`. -/
  | txSecondaryMissing (tx_id : String) (secondary_bus : String)
  /-- system_model.load_system_model: `Unsupported file type ...`. -/
  | unsupportedFormat (fmt : String)
  /-- Builtin KeyError from a dict subscript `d[k]` with `k` absent. -/
  | keyMissing (k : String)
  /-- der_json DER.validate: a numeric-range violation (ValueError). -/
  | invalidConfig (msg : String)
  /-- Loaders: the input path does not exist (FileNotFoundError). -/
  | fileNotFound (path : String)
  /-- dss_loader: a non-zero OpenDSS error code (RuntimeError). -/
  | solverError (msg : String)
  /-- Builtin TypeError from calling a dataclass constructor with a keyword
  argument it does not declare. -/
  | unexpectedKwarg (kw : String)
  deriving DecidableEq

instance {ε α : Type} [DecidableEq ε] [DecidableEq α] : DecidableEq (Except ε α) := fun a b =>
  match a, b with
  | .ok x, .ok y =>
    if h : x = y then .isTrue (by rw [h]) else .isFalse (fun hc => h (Except.ok.inj hc))
  | .error x, .error y =>
    if h : x = y then .isTrue (by rw [h]) else .isFalse (fun hc => h (Except.error.inj hc))
  | .ok _, .error _ => .isFalse (fun hc => Except.noConfusion hc)
  | .error _, .ok _ => .isFalse (fun hc => Except.noConfusion hc)

/-- Numeric value of a list of decimal digit characters. -/
def digitsToNat (cs : List Char) : ℕ :=
  cs.foldl (fun n c => 10 * n + (c.toNat - 48)) 0

/-- Python `str.strip()`: drop leading and trailing whitespace. -/
def pyStrip (s : String) : String :=
  ⟨((s.data.dropWhile Char.isWhitespace).reverse.dropWhile Char.isWhitespace).reverse⟩

/-- Python `str.lower()` (on the ASCII tags the loaders compare). -/
def pyLower (s : String) : String :=
  ⟨s.data.map Char.toLower⟩

/-- Split a character list at each dot: the shape `str.split` with a one-dot
separator produces. -/
def splitOnDot : List Char → List (List Char)
  | [] => [[]]
  | c :: rest =>
    if c = '.' then [] :: splitOnDot rest
    else
      match splitOnDot rest with
      | [] => [[c]]
      | p :: ps => (c :: p) :: ps

/-- Digits-with-optional-dot part of `float()`: `sgn` is the parsed sign,
`body` the characters after it, `orig` the original string reported in the
ValueError. -/
def pyFloatCore (orig : String) (sgn : ℚ) (body : List Char) : Except Err ℚ :=
  match splitOnDot body with
  | [ip] =>
    if 0 < ip.length && ip.all Char.isDigit then
      .ok (sgn * (digitsToNat ip : ℚ))
    else .error (.floatParse orig)
  | [ip, fp] =>
    if 0 < ip.length + fp.length && ip.all Char.isDigit && fp.all Char.isDigit then
      .ok (sgn * ((digitsToNat ip : ℚ) +
        (digitsToNat fp : ℚ) / (10 : ℚ) ^ fp.length))
    else .error (.floatParse orig)
  | _ => .error (.floatParse orig)

/-- Builtin `float()` on a string, modelled on plain decimal literals:
surrounding whitespace stripped, an optional sign, then digits with at most
one decimal point and at least one digit.  (The exponent, `inf` and `nan`
forms accepted by Python are not modelled; no input considered in this
development uses them.)  The empty string, and any other malformed literal,
raises ValueError, embedded as `Err.floatParse`. -/
def pyFloat (s : String) : Except Err ℚ :=
  if (pyStrip s).data.head? = some '-' then pyFloatCore s (-1) (pyStrip s).data.tail
  else if (pyStrip s).data.head? = some '+' then pyFloatCore s 1 (pyStrip s).data.tail
  else pyFloatCore s 1 (pyStrip s).data

/-! ## Arc-flash calculation engine (`PPE_update.py`) -/

/-- Coefficient dictionary of `ieee1584_arcing_current` (PPE_update.py):
enclosure tag to the `(k1, k2, k3)` triple. -/
noncomputable def COEFFS : List (String × (ℝ × ℝ × ℝ)) :=
  [("VCB", (-0.153, 0.662, 0.0966)),
   ("HCB", (-0.153, 0.662, 0.0966)),
   ("VOA", (-0.792, 0.662, 0.0966)),
   ("HOA", (-0.792, 0.662, 0.0966))]

/-- `ieee1584_arcing_current` (PPE_update.py, lines 36-53).  The dict subscript
`COEFFS[enclosure]` raises KeyError for an unknown enclosure, embedded as
`Err.keyMissing`; `np.log10` is `Real.logb 10` and `10 ** x` is the real
power. -/
noncomputable def ieee1584_arcing_current (I_bf V_kV gap_mm : ℝ) (enclosure : String) :
    Except Err ℝ :=
  match COEFFS.lookup enclosure with
  | none => .error (.keyMissing enclosure)
  | some (k1, k2, k3) =>
    .ok ((10 : ℝ) ^ (k1 + k2 * Real.logb 10 I_bf + k3 * Real.logb 10 (V_kV * 1000) +
      0.00402 * gap_mm))

/-- `ieee1584_incident_energy` (PPE_update.py, lines 56-65). -/
noncomputable def ieee1584_incident_energy
    (Ia V_kV gap_mm clearing_time_s working_distance_mm : ℝ) : ℝ :=
  let En : ℝ := (10 : ℝ) ^ (-0.555 + 1.081 * Real.logb 10 Ia + 0.0011 * gap_mm)
  let Cf : ℝ := if V_kV ≥ 1.0 then 1.0 else 1.5
  Cf * En * (clearing_time_s / 0.2) * (610 / working_distance_mm) ^ 2

/-- `ppe_category` (PPE_update.py, lines 71-83): the ascending threshold
ladder with inclusive upper bounds.  Energies are modelled as exact rationals
(PPE_update.py compares floats with the same relational operators). -/
def ppe_category (energy_cal_cm2 : ℚ) : String :=
  if energy_cal_cm2 ≤ 1.2 then "Below arc-flash threshold (No PPE)"
  else if energy_cal_cm2 ≤ 4 then "PPE Category 1"
  else if energy_cal_cm2 ≤ 8 then "PPE Category 2"
  else if energy_cal_cm2 ≤ 25 then "PPE Category 3"
  else if energy_cal_cm2 ≤ 40 then "PPE Category 4"
  else "Above PPE Category 4 (Dangerous)"

/-- Position of a `ppe_category` result string in the ladder, used to state
monotonicity of the classification. -/
def ppeRank (c : String) : ℕ :=
  if c = "Below arc-flash threshold (No PPE)" then 0
  else if c = "PPE Category 1" then 1
  else if c = "PPE Category 2" then 2
  else if c = "PPE Category 3" then 3
  else if c = "PPE Category 4" then 4
  else 5

/-! ## Entity model (`system_model/core.py`)

The `Bus`, `Line` and `Transformer` records carry exactly the fields the
dataclasses in `system_model/core.py` declare: `Bus` has only `bus_id` and
`kv`, and `Line` has no `length` or `linecode`.  Every loader passes
additional keyword arguments to the `Bus` and `Line` constructors (`zone=`,
and `length=`/`linecode=`); Python rejects such a call with TypeError, which
the loader embeddings below model through `pyKwargCall` at each construction
site.  (`Transformer` declares `tap`, so its construction succeeds.) -/

structure Bus where
  bus_id : String
  kv : ℚ
  deriving DecidableEq

structure Line where
  line_id : String
  from_bus : String
  to_bus : String
  r_ohm : ℚ
  x_ohm : ℚ
  deriving DecidableEq

structure Transformer where
  tx_id : String
  primary_bus : String
  secondary_bus : String
  primary_kv : ℚ
  secondary_kv : ℚ
  z_percent : ℚ
  tap : Option ℚ
  deriving DecidableEq

/-- Field names declared by the `Bus` dataclass in `system_model/core.py`
(lines 6-9): only `bus_id` and `kv`. -/
def coreBusFields : List String := ["bus_id", "kv"]

/-- Field names declared by the `Line` dataclass in `system_model/core.py`
(lines 12-18). -/
def coreLineFields : List String := ["line_id", "from_bus", "to_bus", "r_ohm", "x_ohm"]

/-- Field names declared by the `Transformer` dataclass in
`system_model/core.py` (lines 21-29), `tap` included. -/
def coreTxFields : List String :=
  ["tx_id", "primary_bus", "secondary_bus", "primary_kv", "secondary_kv", "z_percent", "tap"]

/-- Keyword arguments `CsvReader._add_bus` (and `JsonReader.load`) pass to the
`Bus` constructor. -/
def busCallKwargs : List String := ["bus_id", "kv", "zone"]

/-- Keyword arguments `CsvReader._add_line` (and `JsonReader.load` and
`DssReader.load`) pass to the `Line` constructor. -/
def lineCallKwargs : List String :=
  ["line_id", "from_bus", "to_bus", "r_ohm", "x_ohm", "length", "linecode"]

/-- Keyword arguments the loaders pass to the `Transformer` constructor. -/
def txCallKwargs : List String :=
  ["tx_id", "primary_bus", "secondary_bus", "primary_kv", "secondary_kv", "z_percent", "tap"]

/-- Python call semantics for a dataclass constructor invoked with keyword
arguments: a keyword that is not a declared field raises
`TypeError: __init__() got an unexpected keyword argument ...` (CPython names
the first unexpected keyword in call order). -/
def pyKwargCall (fields kwargs : List String) : Except Err Unit :=
  match kwargs.find? (fun k => !fields.contains k) with
  | some k => .error (.unexpectedKwarg k)
  | none => .ok ()

/-- `SystemModel` (core.py): three insertion-ordered dicts keyed by id,
embedded as association lists. -/
structure SystemModel where
  buses : List (String × Bus)
  lines : List (String × Line)
  transformers : List (String × Transformer)
  deriving DecidableEq

/-- First half of `SystemModel.validate`: walk the lines in order and raise on
the first dangling `from_bus` or `to_bus` reference. -/
def checkLines (buses : List (String × Bus)) : List (String × Line) → Except Err Unit
  | [] => .ok ()
  | (_, l) :: rest =>
    if (buses.lookup l.from_bus).isNone then .error (.lineFromMissing l.line_id l.from_bus)
    else if (buses.lookup l.to_bus).isNone then .error (.lineToMissing l.line_id l.to_bus)
    else checkLines buses rest

/-- Second half of `SystemModel.validate`: walk the transformers in order and
raise on the first dangling `primary_bus` or `secondary_bus` reference. -/
def checkTxs (buses : List (String × Bus)) : List (String × Transformer) → Except Err Unit
  | [] => .ok ()
  | (_, t) :: rest =>
    if (buses.lookup t.primary_bus).isNone then .error (.txPrimaryMissing t.tx_id t.primary_bus)
    else if (buses.lookup t.secondary_bus).isNone then
      .error (.txSecondaryMissing t.tx_id t.secondary_bus)
    else checkTxs buses rest

/-- `SystemModel.validate` (core.py, lines 38-59): all lines are checked
first, then all transformers; the function reads the model and returns
nothing (it performs no mutation). -/
def SystemModel.validate (m : SystemModel) : Except Err Unit :=
  match checkLines m.buses m.lines with
  | .error e => .error e
  | .ok _ => checkTxs m.buses m.transformers

/-- Referential integrity of a model, as a proposition: every line endpoint
and every transformer winding names a bus key of the model. -/
def refsOk (m : SystemModel) : Prop :=
  (∀ p ∈ m.lines, (m.buses.lookup p.2.from_bus).isSome ∧ (m.buses.lookup p.2.to_bus).isSome) ∧
  (∀ p ∈ m.transformers,
    (m.buses.lookup p.2.primary_bus).isSome ∧ (m.buses.lookup p.2.secondary_bus).isSome)

/-- Statement that a validation error names an entity of the model together
with the bus id it dangles on: the named entity is in the model, it really
references the named bus in the named role, and that bus id is not a key of
the bus dict. -/
def Err.namesDanglingRef (m : SystemModel) : Err → Prop
  | .lineFromMissing lid b =>
    (∃ p ∈ m.lines, p.2.line_id = lid ∧ p.2.from_bus = b) ∧ (m.buses.lookup b).isNone
  | .lineToMissing lid b =>
    (∃ p ∈ m.lines, p.2.line_id = lid ∧ p.2.to_bus = b) ∧ (m.buses.lookup b).isNone
  | .txPrimaryMissing tid b =>
    (∃ p ∈ m.transformers, p.2.tx_id = tid ∧ p.2.primary_bus = b) ∧ (m.buses.lookup b).isNone
  | .txSecondaryMissing tid b =>
    (∃ p ∈ m.transformers, p.2.tx_id = tid ∧ p.2.secondary_bus = b) ∧ (m.buses.lookup b).isNone
  | _ => False

/-! ## CSV loader (`system_model/csv_loader.py`)

A parsed CSV file is the header (the column names `csv.DictReader` read) and
the rows, each row the dict `DictReader` built for it: an association list
from column name to cell text.  `DictReader` gives every row exactly the
header's keys; theorems that rely on that invariant take it as a hypothesis. -/

def Row : Type := List (String × String)

structure CsvFile where
  header : List String
  rows : List Row

def REQUIRED_BUS_FIELDS : List String := ["bus_id", "kv"]

def REQUIRED_LINE_FIELDS : List String := ["line_id", "from_bus", "to_bus", "r_ohm", "x_ohm"]

def REQUIRED_TX_FIELDS : List String :=
  ["tx_id", "primary_bus", "secondary_bus", "primary_kv", "secondary_kv", "z_percent"]

/-- Python set difference `REQUIRED_..._FIELDS - row.keys()`, as the required
names absent from the row's keys (kept in the required list's order; Python's
set is unordered but holds the same names). -/
def missingFrom (required : List String) (row : Row) : List String :=
  required.filter (fun k => !(row.map Prod.fst).contains k)

/-- Dict subscript `row[k]`: KeyError when the key is absent. -/
def getCell (row : Row) (k : String) : Except Err String :=
  match List.lookup k row with
  | some v => .ok v
  | none => .error (.keyMissing k)

/-- Python `x or None` on an optional string (`row.get(...) or None`): `None`
and the empty string are falsy and give `None`. -/
def orNoneStr : Option String → Option String
  | none => none
  | some s => if s = "" then none else some s

/-- Python `float(row[k]) if row.get(k) else None`: an absent or falsy (empty)
cell gives `None`, anything else is converted by `float()`. -/
def csvOptFloat : Option String → Except Err (Option ℚ)
  | none => .ok none
  | some s =>
    if s = "" then .ok none
    else match pyFloat s with
      | .error e => .error e
      | .ok q => .ok (some q)

/-- `CsvReader._add_bus` (csv_loader.py, lines 49-61): required-field check
against the row's keys, then evaluation of the constructor arguments in
source order (`str(row["bus_id"])`, `float(row["kv"])`, and
`row.get("zone") or None`, which is total), then the `Bus(...)` call itself —
which core.py's `Bus` rejects with TypeError, since `zone` is not a declared
field — so the duplicate-id check and the insertion that follow in the
source are unreachable for every row. -/
def csvAddBus (m : SystemModel) (row : Row) : Except Err SystemModel :=
  if missingFrom REQUIRED_BUS_FIELDS row ≠ [] then
    .error (.missingFields "Bus" (missingFrom REQUIRED_BUS_FIELDS row))
  else match getCell row "bus_id" with
    | .error e => .error e
    | .ok bid =>
      match getCell row "kv" with
      | .error e => .error e
      | .ok kvs =>
        match pyFloat kvs with
        | .error e => .error e
        | .ok kv =>
          match pyKwargCall coreBusFields busCallKwargs with
          | .error e => .error e
          | .ok _ =>
            if (m.buses.lookup bid).isSome then .error (.dupId "CSV" "bus_id" bid)
            else .ok { m with buses := m.buses ++ [(bid, ⟨bid, kv⟩)] }

/-- `CsvReader._add_line` (csv_loader.py, lines 63-79): like `_add_bus`, the
arguments (including `float(row["length"])` when the cell is truthy) are
evaluated first, then the `Line(...)` call raises TypeError for the
undeclared `length` keyword, leaving the duplicate check and insertion
unreachable. -/
def csvAddLine (m : SystemModel) (row : Row) : Except Err SystemModel :=
  if missingFrom REQUIRED_LINE_FIELDS row ≠ [] then
    .error (.missingFields "Line" (missingFrom REQUIRED_LINE_FIELDS row))
  else match getCell row "line_id" with
    | .error e => .error e
    | .ok lid =>
      match getCell row "from_bus" with
      | .error e => .error e
      | .ok fb =>
        match getCell row "to_bus" with
        | .error e => .error e
        | .ok tb =>
          match getCell row "r_ohm" with
          | .error e => .error e
          | .ok rs =>
            match pyFloat rs with
            | .error e => .error e
            | .ok r =>
              match getCell row "x_ohm" with
              | .error e => .error e
              | .ok xs =>
                match pyFloat xs with
                | .error e => .error e
                | .ok x =>
                  match csvOptFloat (List.lookup "length" row) with
                  | .error e => .error e
                  | .ok _ =>
                    match pyKwargCall coreLineFields lineCallKwargs with
                    | .error e => .error e
                    | .ok _ =>
                      if (m.lines.lookup lid).isSome then
                        .error (.dupId "CSV" "line_id" lid)
                      else .ok { m with lines := m.lines ++
                        [(lid, ⟨lid, fb, tb, r, x⟩)] }

/-- `CsvReader._add_transformer` (csv_loader.py, lines 81-97). -/
def csvAddTx (m : SystemModel) (row : Row) : Except Err SystemModel :=
  if missingFrom REQUIRED_TX_FIELDS row ≠ [] then
    .error (.missingFields "Transformer" (missingFrom REQUIRED_TX_FIELDS row))
  else match getCell row "tx_id" with
    | .error e => .error e
    | .ok tid =>
      match getCell row "primary_bus" with
      | .error e => .error e
      | .ok pb =>
        match getCell row "secondary_bus" with
        | .error e => .error e
        | .ok sb =>
          match getCell row "primary_kv" with
          | .error e => .error e
          | .ok pks =>
            match pyFloat pks with
            | .error e => .error e
            | .ok pk =>
              match getCell row "secondary_kv" with
              | .error e => .error e
              | .ok sks =>
                match pyFloat sks with
                | .error e => .error e
                | .ok sk =>
                  match getCell row "z_percent" with
                  | .error e => .error e
                  | .ok zs =>
                    match pyFloat zs with
                    | .error e => .error e
                    | .ok z =>
                      match csvOptFloat (List.lookup "tap" row) with
                      | .error e => .error e
                      | .ok tap =>
                        if (m.transformers.lookup tid).isSome then
                          .error (.dupId "CSV" "tx_id" tid)
                        else .ok { m with transformers := m.transformers ++
                          [(tid, ⟨tid, pb, sb, pk, sk, z, tap⟩)] }

/-- Row-type tag of a row: `(row.get("type") or "").strip().lower()`. -/
def rowTypeTag (row : Row) : String :=
  pyLower (pyStrip ((List.lookup "type" row).getD ""))

/-- Row loop of `CsvReader.load` (csv_loader.py, lines 30-44): skip rows with
a blank tag, dispatch `bus`, `line` and `transformer` rows, and raise on any
other tag. -/
def csvLoadRows (m : SystemModel) : List Row → Except Err SystemModel
  | [] => .ok m
  | row :: rest =>
    if rowTypeTag row = "" then csvLoadRows m rest
    else if rowTypeTag row = "bus" then
      match csvAddBus m row with
      | .error e => .error e
      | .ok m1 => csvLoadRows m1 rest
    else if rowTypeTag row = "line" then
      match csvAddLine m row with
      | .error e => .error e
      | .ok m1 => csvLoadRows m1 rest
    else if rowTypeTag row = "transformer" then
      match csvAddTx m row with
      | .error e => .error e
      | .ok m1 => csvLoadRows m1 rest
    else .error (.unknownRowType (rowTypeTag row))

/-- Final step shared by the loaders: `model.validate()` then `return model`;
a model is handed out only when validation returned normally. -/
def finishLoad (m : SystemModel) : Except Err SystemModel :=
  match m.validate with
  | .error e => .error e
  | .ok _ => .ok m

/-- `CsvReader.load` (csv_loader.py, lines 17-47) from the parsed file
onwards: the header must contain `type`, then the row loop runs over an
initially empty model, then `model.validate()`.  (The `path.exists()` check
that precedes parsing concerns the filesystem and is outside this model.) -/
def csvLoad (f : CsvFile) : Except Err SystemModel :=
  if f.header.contains "type" then
    match csvLoadRows ⟨[], [], []⟩ f.rows with
    | .error e => .error e
    | .ok m => finishLoad m
  else .error .noTypeColumn

/-! ## JSON loader (`system_model/json_loader.py`) -/

/-- Values a field of a parsed JSON entity object can hold. -/
inductive JVal where
  | str (s : String)
  | num (q : ℚ)
  | bool (b : Bool)
  | null
  deriving DecidableEq

def JObj : Type := List (String × JVal)

/-- Parsed JSON document for `JsonReader.load`: the three top-level arrays,
each `none` when its key is absent (`data.get(..., [])` treats that as the
empty list); any additional top-level keys are ignored by the loader and are
not represented. -/
structure JsonDoc where
  buses : Option (List JObj)
  lines : Option (List JObj)
  transformers : Option (List JObj)

/-- Builtin `str()` on a JSON-derived value.  A string is returned unchanged,
which is the only case the loaders' inputs exercise; numbers and the other
constructors are rendered by a fixed textual approximation of Python's
rendering. -/
def pyStr : JVal → String
  | .str s => s
  | .num q => toString q
  | .bool b => if b then "True" else "False"
  | .null => "None"

/-- Builtin `float()` on a JSON-derived value: a number is returned as is, a
string is parsed as by `pyFloat`, a bool becomes 0 or 1, and `None` raises
TypeError. -/
def floatOfJ : JVal → Except Err ℚ
  | .num q => .ok q
  | .str s => pyFloat s
  | .bool b => .ok (if b then 1 else 0)
  | .null => .error (.badType "float() argument must not be None")

/-- Python truthiness of a JSON-derived value: empty string, zero, `False`
and `None` are falsy. -/
def jTruthy : JVal → Bool
  | .str s => s ≠ ""
  | .num q => q ≠ 0
  | .bool b => b
  | .null => false

/-- Value of the optional-string argument expression `obj.get(k)` that
json_loader builds for `zone`/`linecode` (no `or None` applied): an absent
key or explicit `null` gives `None`, a string — including the empty string —
is kept; non-string values are represented by their `pyStr` rendering.  The
expression is total, and the rejected constructor call never consumes it. -/
def pyOptStr : Option JVal → Option String
  | none => none
  | some (.str s) => some s
  | some .null => none
  | some v => some (pyStr v)

/-- Python `float(obj[k]) if obj.get(k) else None` on a JSON value: an absent
key or a falsy value (including the number 0) gives `None`. -/
def jsonOptFloat : Option JVal → Except Err (Option ℚ)
  | none => .ok none
  | some v =>
    if jTruthy v then
      match floatOfJ v with
      | .error e => .error e
      | .ok q => .ok (some q)
    else .ok none

/-- Dict subscript `obj[k]` on a JSON object. -/
def getJ (b : JObj) (k : String) : Except Err JVal :=
  match List.lookup k b with
  | some v => .ok v
  | none => .error (.keyMissing k)

/-- Bus block of `JsonReader.load` (json_loader.py, lines 23-31): read and
stringify `bus_id`, check for a duplicate, then evaluate the constructor
arguments (`float(b["kv"])` can raise; `b.get("zone")` is total) and perform
the `Bus(...)` call, which raises TypeError for the undeclared `zone`
keyword; the insertion is unreachable. -/
def jsonAddBus (m : SystemModel) (b : JObj) : Except Err SystemModel :=
  match getJ b "bus_id" with
  | .error e => .error e
  | .ok v =>
    if (m.buses.lookup (pyStr v)).isSome then .error (.dupId "JSON" "bus_id" (pyStr v))
    else match getJ b "kv" with
      | .error e => .error e
      | .ok kvv =>
        match floatOfJ kvv with
        | .error e => .error e
        | .ok kv =>
          match pyKwargCall coreBusFields busCallKwargs with
          | .error e => .error e
          | .ok _ => .ok { m with buses := m.buses ++ [(pyStr v, ⟨pyStr v, kv⟩)] }

/-- Line block of `JsonReader.load` (json_loader.py, lines 34-46): duplicate
check after `line_id`, then argument evaluation, then the `Line(...)` call,
which raises TypeError for the undeclared `length` keyword. -/
def jsonAddLine (m : SystemModel) (l : JObj) : Except Err SystemModel :=
  match getJ l "line_id" with
  | .error e => .error e
  | .ok v =>
    if (m.lines.lookup (pyStr v)).isSome then .error (.dupId "JSON" "line_id" (pyStr v))
    else match getJ l "from_bus" with
      | .error e => .error e
      | .ok fv =>
        match getJ l "to_bus" with
        | .error e => .error e
        | .ok tv =>
          match getJ l "r_ohm" with
          | .error e => .error e
          | .ok rv =>
            match floatOfJ rv with
            | .error e => .error e
            | .ok r =>
              match getJ l "x_ohm" with
              | .error e => .error e
              | .ok xv =>
                match floatOfJ xv with
                | .error e => .error e
                | .ok x =>
                  match jsonOptFloat (List.lookup "length" l) with
                  | .error e => .error e
                  | .ok _ =>
                    match pyKwargCall coreLineFields lineCallKwargs with
                    | .error e => .error e
                    | .ok _ => .ok { m with lines := m.lines ++
                        [(pyStr v, ⟨pyStr v, pyStr fv, pyStr tv, r, x⟩)] }

/-- Transformer block of `JsonReader.load` (json_loader.py, lines 49-61). -/
def jsonAddTx (m : SystemModel) (t : JObj) : Except Err SystemModel :=
  match getJ t "tx_id" with
  | .error e => .error e
  | .ok v =>
    if (m.transformers.lookup (pyStr v)).isSome then .error (.dupId "JSON" "tx_id" (pyStr v))
    else match getJ t "primary_bus" with
      | .error e => .error e
      | .ok pv =>
        match getJ t "secondary_bus" with
        | .error e => .error e
        | .ok sv =>
          match getJ t "primary_kv" with
          | .error e => .error e
          | .ok pkv =>
            match floatOfJ pkv with
            | .error e => .error e
            | .ok pk =>
              match getJ t "secondary_kv" with
              | .error e => .error e
              | .ok skv =>
                match floatOfJ skv with
                | .error e => .error e
                | .ok sk =>
                  match getJ t "z_percent" with
                  | .error e => .error e
                  | .ok zv =>
                    match floatOfJ zv with
                    | .error e => .error e
                    | .ok z =>
                      match jsonOptFloat (List.lookup "tap" t) with
                      | .error e => .error e
                      | .ok tap => .ok { m with transformers := m.transformers ++
                          [(pyStr v, ⟨pyStr v, pyStr pv, pyStr sv, pk, sk, z, tap⟩)] }

/-- One entity array processed in order with fail-fast propagation (the shape
of each of the three loops in `JsonReader.load`). -/
def loadFold {α : Type} (step : SystemModel → α → Except Err SystemModel)
    (m : SystemModel) : List α → Except Err SystemModel
  | [] => .ok m
  | a :: rest =>
    match step m a with
    | .error e => .error e
    | .ok m1 => loadFold step m1 rest

/-- `JsonReader.load` (json_loader.py, lines 8-64) from the parsed document
onwards: buses, then lines, then transformers, then `model.validate()`. -/
def jsonLoad (d : JsonDoc) : Except Err SystemModel :=
  match loadFold jsonAddBus ⟨[], [], []⟩ (d.buses.getD []) with
  | .error e => .error e
  | .ok m1 =>
    match loadFold jsonAddLine m1 (d.lines.getD []) with
    | .error e => .error e
    | .ok m2 =>
      match loadFold jsonAddTx m2 (d.transformers.getD []) with
      | .error e => .error e
      | .ok m3 => finishLoad m3

/-! ## Model factory (`system_model/__init__.py`) -/

inductive PyVal where
  | str (s : String)
  | num (q : ℚ)
  | bool (b : Bool)
  | null
  | list (xs : List PyVal)
  | dict (kvs : List (String × PyVal))

def PyDict : Type := List (String × PyVal)

/-- `REGCConfig` (der_json.py, lines 14-31) with its per-field defaults. -/
structure REGCConfig where
  model : String := "REGC_A"
  imax : ℚ := 1.2
  imax_fault : Option ℚ := none
  r_source_pu : ℚ := 0.01
  x_source_pu : ℚ := 0.12
  iq_priority : String := "reactive"
  kp_pll : ℚ := 20
  ki_pll : ℚ := 200
  wmax : ℚ := 2
  wmin : ℚ := -2

/-- `REGCConfig.effective_imax_fault`: fall back to `imax` when `imax_fault`
was not provided. -/
def REGCConfig.effective_imax_fault (c : REGCConfig) : ℚ :=
  c.imax_fault.getD c.imax

/-- `REECConfig` (der_json.py, lines 34-54) with its per-field defaults. -/
structure REECConfig where
  model : String := "REEC_A"
  vref_pu : ℚ := 1
  qref_pu : ℚ := 0
  kqv : ℚ := 7.5
  vdip_pu : ℚ := 0.9
  vup_pu : ℚ := 1.1
  iqmax_pu : ℚ := 1.1
  iqmin_pu : ℚ := -1.1
  pmax_pu : ℚ := 1
  pmin_pu : ℚ := 0
  pf_flag : ℚ := 0
  pq_flag : ℚ := 1
  vq_flag : ℚ := 0

structure VRTPoint where
  voltage_pu : ℚ
  max_time_s : ℚ

structure FRTPoint where
  frequency_hz : ℚ
  max_time_s : ℚ

structure RideThroughConfig where
  vrt_curve : List VRTPoint := []
  frt_curve : List FRTPoint := []

/-- `DER` (der_json.py, lines 79-99). -/
structure DER where
  der_id : String
  der_type : String
  connection_bus : String
  mva_rating : ℚ
  kv_ll : ℚ
  pref_MW : ℚ
  qref_MVAR : ℚ := 0
  power_factor : Option ℚ := none
  regc : REGCConfig := {}
  reec : REECConfig := {}
  ride_through : RideThroughConfig := {}
  metadata : PyDict := []

/-- `DER.validate` (der_json.py, lines 103-121): the five range checks, in
source order, each raising ValueError. -/
def DER.validate (d : DER) : Except Err Unit :=
  if d.mva_rating ≤ 0 then .error (.invalidConfig "mva_rating must be > 0")
  else if d.kv_ll ≤ 0 then .error (.invalidConfig "kv_ll must be > 0")
  else if d.connection_bus = "" then .error (.invalidConfig "connection_bus must be non-empty")
  else if d.regc.imax ≤ 0 then .error (.invalidConfig "regc.imax must be > 0")
  else if d.reec.iqmax_pu < 0 then .error (.invalidConfig "reec.iqmax_pu should be >= 0")
  else .ok ()

/-- `asdict` of a VRT point. -/
def asdictVRT (p : VRTPoint) : PyVal :=
  .dict [("voltage_pu", .num p.voltage_pu), ("max_time_s", .num p.max_time_s)]

/-- `asdict` of an FRT point. -/
def asdictFRT (p : FRTPoint) : PyVal :=
  .dict [("frequency_hz", .num p.frequency_hz), ("max_time_s", .num p.max_time_s)]

def pyOfOptQ : Option ℚ → PyVal
  | none => .null
  | some q => .num q

/-- `DER.to_sim_payload` (der_json.py, lines 137-189): the flattened export
record, keys in source order.  Note the resource type is exported under the
key `type`. -/
def DER.to_sim_payload (d : DER) : PyDict :=
  [("der_id", .str d.der_id),
   ("type", .str d.der_type),
   ("connection_bus", .str d.connection_bus),
   ("mva_rating", .num d.mva_rating),
   ("kv_ll", .num d.kv_ll),
   ("pref_MW", .num d.pref_MW),
   ("qref_MVAR", .num d.qref_MVAR),
   ("power_factor", pyOfOptQ d.power_factor),
   ("regc", .dict
     [("model", .str d.regc.model),
      ("imax", .num d.regc.imax),
      ("imax_fault", .num d.regc.effective_imax_fault),
      ("r_source_pu", .num d.regc.r_source_pu),
      ("x_source_pu", .num d.regc.x_source_pu),
      ("iq_priority", .str d.regc.iq_priority),
      ("kp_pll", .num d.regc.kp_pll),
      ("ki_pll", .num d.regc.ki_pll),
      ("wmax", .num d.regc.wmax),
      ("wmin", .num d.regc.wmin)]),
   ("reec", .dict
     [("model", .str d.reec.model),
      ("vref_pu", .num d.reec.vref_pu),
      ("qref_pu", .num d.reec.qref_pu),
      ("kqv", .num d.reec.kqv),
      ("vdip_pu", .num d.reec.vdip_pu),
      ("vup_pu", .num d.reec.vup_pu),
      ("iqmax_pu", .num d.reec.iqmax_pu),
      ("iqmin_pu", .num d.reec.iqmin_pu),
      ("pmax_pu", .num d.reec.pmax_pu),
      ("pmin_pu", .num d.reec.pmin_pu),
      ("pf_flag", .num d.reec.pf_flag),
      ("pq_flag", .num d.reec.pq_flag),
      ("vq_flag", .num d.reec.vq_flag)]),
   ("ride_through", .dict
     [("vrt_curve", .list (d.ride_through.vrt_curve.map asdictVRT)),
      ("frt_curve", .list (d.ride_through.frt_curve.map asdictFRT))])]

/-- Dict subscript `d[k]` on a Python dict value. -/
def dGet (d : PyDict) (k : String) : Except Err PyVal :=
  match List.lookup k d with
  | some v => .ok v
  | none => .error (.keyMissing k)

/-- Python `d.get(k, default)`. -/
def dGetD (d : PyDict) (k : String) (dflt : PyVal) : PyVal :=
  (List.lookup k d).getD dflt

/-- Builtin `str()` rendering of a `PyVal`, used where the registry reads a
field that every considered input supplies as a string. -/
def pyStrP : PyVal → String
  | .str s => s
  | .num q => toString q
  | .bool b => if b then "True" else "False"
  | .null => "None"
  | .list _ => "[...]"
  | .dict _ => "dict"

/-- Numeric reading of a stored value (see the section comment): numbers and
bools are numeric, strings and `None` are not. -/
def asQ : PyVal → Except Err ℚ
  | .num q => .ok q
  | .bool b => .ok (if b then 1 else 0)
  | .str _ => .error (.badType "expected a number")
  | .null => .error (.badType "expected a number, got NoneType")
  | .list _ => .error (.badType "expected a number")
  | .dict _ => .error (.badType "expected a number")

/-- Optional numeric field read with `d.get(k)`: absent or `None` is `none`. -/
def asOptQ : Option PyVal → Except Err (Option ℚ)
  | none => .ok none
  | some .null => .ok none
  | some v =>
    match asQ v with
    | .error e => .error e
    | .ok q => .ok (some q)

def asPyDict : PyVal → Except Err PyDict
  | .dict kvs => .ok kvs
  | _ => .error (.badType "expected an object")

def asPyList : PyVal → Except Err (List PyVal)
  | .list xs => .ok xs
  | _ => .error (.badType "expected an array")

/-- `VRTPoint(voltage_pu=pt["voltage_pu"], max_time_s=pt["max_time_s"])`. -/
def parseVRTPoint (v : PyVal) : Except Err VRTPoint := do
  let pt ← asPyDict v
  let vp ← asQ (← dGet pt "voltage_pu")
  let mt ← asQ (← dGet pt "max_time_s")
  pure ⟨vp, mt⟩

/-- `FRTPoint(frequency_hz=pt["frequency_hz"], max_time_s=pt["max_time_s"])`. -/
def parseFRTPoint (v : PyVal) : Except Err FRTPoint := do
  let pt ← asPyDict v
  let fh ← asQ (← dGet pt "frequency_hz")
  let mt ← asQ (← dGet pt "max_time_s")
  pure ⟨fh, mt⟩

def parseVRTList : List PyVal → Except Err (List VRTPoint)
  | [] => .ok []
  | v :: rest => do
    let p ← parseVRTPoint v
    let ps ← parseVRTList rest
    pure (p :: ps)

def parseFRTList : List PyVal → Except Err (List FRTPoint)
  | [] => .ok []
  | v :: rest => do
    let p ← parseFRTPoint v
    let ps ← parseFRTList rest
    pure (p :: ps)

/-- `DERStorage.from_dict` (der_json.py, lines 212-291), reading the source's
keys in the source's order — its first access is the subscript
`data["der_type"]`, a KeyError when that key is absent — applying the
documented per-field defaults, constructing the DER and validating it.  (The
final store into the registry dict, which silently overwrites a previous
entry under the same id, is the caller's `self._ders[der_id] = der`.) -/
def DERStorage.from_dict (der_id : String) (data : PyDict) : Except Err DER := do
  let der_type := pyStrP (← dGet data "der_type")
  let connection_bus := pyStrP (← dGet data "connection_bus")
  let mva_rating ← asQ (← dGet data "mva_rating")
  let kvRaw : PyVal :=
    match List.lookup "kv" data with
    | some v => v
    | none => dGetD data "kv_ll" .null
  let kv_ll ← asQ kvRaw
  let pref_MW ← asQ (dGetD data "pref_MW" (.num 0))
  let qref_MVAR ← asQ (dGetD data "qref_MVAR" (.num 0))
  let power_factor ← asOptQ (List.lookup "power_factor" data)
  let rd ← asPyDict (dGetD data "regc" (.dict []))
  let rImax ← asQ (dGetD rd "imax" (.num 1.2))
  let rImaxFault ← asOptQ (List.lookup "imax_fault" rd)
  let rR ← asQ (dGetD rd "r_source_pu" (.num 0.01))
  let rX ← asQ (dGetD rd "x_source_pu" (.num 0.12))
  let rKp ← asQ (dGetD rd "kp_pll" (.num 20))
  let rKi ← asQ (dGetD rd "ki_pll" (.num 200))
  let rWmax ← asQ (dGetD rd "wmax" (.num 2))
  let rWmin ← asQ (dGetD rd "wmin" (.num (-2)))
  let regc : REGCConfig :=
    ⟨pyStrP (dGetD rd "model" (.str "REGC_A")), rImax, rImaxFault, rR, rX,
      pyStrP (dGetD rd "iq_priority" (.str "reactive")), rKp, rKi, rWmax, rWmin⟩
  let ed ← asPyDict (dGetD data "reec" (.dict []))
  let eVref ← asQ (dGetD ed "vref_pu" (.num 1))
  let eQref ← asQ (dGetD ed "qref_pu" (.num 0))
  let eKqv ← asQ (dGetD ed "kqv" (.num 7.5))
  let eVdip ← asQ (dGetD ed "vdip_pu" (.num 0.9))
  let eVup ← asQ (dGetD ed "vup_pu" (.num 1.1))
  let eIqmax ← asQ (dGetD ed "iqmax_pu" (.num 1.1))
  let eIqmin ← asQ (dGetD ed "iqmin_pu" (.num (-1.1)))
  let ePmax ← asQ (dGetD ed "pmax_pu" (.num 1))
  let ePmin ← asQ (dGetD ed "pmin_pu" (.num 0))
  let ePf ← asQ (dGetD ed "pf_flag" (.num 0))
  let ePq ← asQ (dGetD ed "pq_flag" (.num 1))
  let eVq ← asQ (dGetD ed "vq_flag" (.num 0))
  let reec : REECConfig :=
    ⟨pyStrP (dGetD ed "model" (.str "REEC_A")), eVref, eQref, eKqv, eVdip, eVup,
      eIqmax, eIqmin, ePmax, ePmin, ePf, ePq, eVq⟩
  let rt ← asPyDict (dGetD data "ride_through" (.dict []))
  let vrtRaw ← asPyList (dGetD rt "vrt_curve" (.list []))
  let frtRaw ← asPyList (dGetD rt "frt_curve" (.list []))
  let vrt_curve ← parseVRTList vrtRaw
  let frt_curve ← parseFRTList frtRaw
  let metadata : PyDict :=
    match List.lookup "metadata" data with
    | some (.dict kvs) => kvs
    | _ => []
  let der : DER :=
    ⟨der_id, der_type, connection_bus, mva_rating, kv_ll, pref_MW, qref_MVAR,
      power_factor, regc, reec, ⟨vrt_curve, frt_curve⟩, metadata⟩
  match der.validate with
  | .error e => .error e
  | .ok _ => pure der

/-- CSV rendering of a minimal one-bus topology. -/
def oneBusCsvFile : CsvFile :=
  ⟨["type", "bus_id", "kv"], [[("type", "bus"), ("bus_id", "b1"), ("kv", "1")]]⟩

/-- JSON rendering of the same one-bus topology. -/
def oneBusJsonDoc : JsonDoc :=
  ⟨some [[("bus_id", .str "b1"), ("kv", .num 1)]], some [], some []⟩

section EvaluationResults

attribute [local semireducible] Rat.mul Rat.add Rat.ofScientific Rat.inv Rat.sub

/-- C1: for every positive `I_bf` and `V_kV`, any real `gap_mm`, and each
enclosure in the closed set, `ieee1584_arcing_current` returns
`10 ^ (k1 + k2*log10(I_bf) + k3*log10(V_kV*1000) + 0.00402*gap_mm)` with
`(k1,k2,k3) = (-0.153, 0.662, 0.0966)` for VCB and HCB and
`(-0.792, 0.662, 0.0966)` for VOA and HOA. -/
theorem arcing_current_coefficient_formula (I_bf V_kV gap_mm : ℝ)
    (hI : 0 < I_bf) (hV : 0 < V_kV) :
    ieee1584_arcing_current I_bf V_kV gap_mm "VCB" =
      .ok ((10 : ℝ) ^ ((-0.153) + 0.662 * Real.logb 10 I_bf +
        0.0966 * Real.logb 10 (V_kV * 1000) + 0.00402 * gap_mm)) ∧
    ieee1584_arcing_current I_bf V_kV gap_mm "HCB" =
      .ok ((10 : ℝ) ^ ((-0.153) + 0.662 * Real.logb 10 I_bf +
        0.0966 * Real.logb 10 (V_kV * 1000) + 0.00402 * gap_mm)) ∧
    ieee1584_arcing_current I_bf V_kV gap_mm "VOA" =
      .ok ((10 : ℝ) ^ ((-0.792) + 0.662 * Real.logb 10 I_bf +
        0.0966 * Real.logb 10 (V_kV * 1000) + 0.00402 * gap_mm)) ∧
    ieee1584_arcing_current I_bf V_kV gap_mm "HOA" =
      .ok ((10 : ℝ) ^ ((-0.792) + 0.662 * Real.logb 10 I_bf +
        0.0966 * Real.logb 10 (V_kV * 1000) + 0.00402 * gap_mm)) :=
  ⟨rfl, rfl, rfl, rfl⟩

/-- Instance of `arcing_current_coefficient_formula` at `I_bf = 1`,
`V_kV = 1`, `gap_mm = 0`, enclosure `VCB`. -/
theorem arcing_current_coefficient_formula_witness :
    ieee1584_arcing_current 1 1 0 "VCB" =
      .ok ((10 : ℝ) ^ ((-0.153) + 0.662 * Real.logb 10 1 +
        0.0966 * Real.logb 10 ((1 : ℝ) * 1000) + 0.00402 * 0)) :=
  (arcing_current_coefficient_formula 1 1 0 (by norm_num) (by norm_num)).1

/-- C2: for every positive `Ia` and `working_distance_mm`,
`ieee1584_incident_energy` returns `Cf * En * (t/0.2) * (610/d)^2` with
`En = 10 ^ (-0.555 + 1.081*log10(Ia) + 0.0011*gap_mm)` and `Cf = 1.0` when
`V_kV ≥ 1.0`, `Cf = 1.5` otherwise. -/
theorem incident_energy_formula (Ia V_kV gap_mm clearing_time_s working_distance_mm : ℝ)
    (hIa : 0 < Ia) (hw : 0 < working_distance_mm) :
    (V_kV ≥ 1.0 →
      ieee1584_incident_energy Ia V_kV gap_mm clearing_time_s working_distance_mm =
        1.0 * ((10 : ℝ) ^ ((-0.555) + 1.081 * Real.logb 10 Ia + 0.0011 * gap_mm)) *
          (clearing_time_s / 0.2) * (610 / working_distance_mm) ^ 2) ∧
    (¬ V_kV ≥ 1.0 →
      ieee1584_incident_energy Ia V_kV gap_mm clearing_time_s working_distance_mm =
        1.5 * ((10 : ℝ) ^ ((-0.555) + 1.081 * Real.logb 10 Ia + 0.0011 * gap_mm)) *
          (clearing_time_s / 0.2) * (610 / working_distance_mm) ^ 2) := by
  refine ⟨fun h => ?_, fun h => ?_⟩ <;> dsimp only [ieee1584_incident_energy]
  · rw [if_pos h]
  · rw [if_neg h]

/-- Instance of `incident_energy_formula` at `Ia = 1`, `V_kV = 1`,
`gap_mm = 0`, `t = 0.2`, `d = 610`. -/
theorem incident_energy_formula_witness :
    ieee1584_incident_energy 1 1 0 0.2 610 =
      1.0 * ((10 : ℝ) ^ ((-0.555) + 1.081 * Real.logb 10 1 + 0.0011 * 0)) *
        ((0.2 : ℝ) / 0.2) * ((610 : ℝ) / 610) ^ 2 :=
  (incident_energy_formula 1 1 0 0.2 610 (by norm_num) (by norm_num)).1 (by norm_num)

/-- C3: `ppe_category` is monotone non-decreasing in its energy argument and
implements the ordered threshold table with inclusive upper bounds at 1.2, 4,
8, 25 and 40; in particular at the boundaries 1.2 and 40 and just above 40. -/
theorem ppe_category_threshold_table :
    (∀ E F : ℚ, E ≤ F → ppeRank (ppe_category E) ≤ ppeRank (ppe_category F)) ∧
    (∀ E : ℚ, E ≤ 1.2 → ppe_category E = "Below arc-flash threshold (No PPE)") ∧
    (∀ E : ℚ, 1.2 < E → E ≤ 4 → ppe_category E = "PPE Category 1") ∧
    (∀ E : ℚ, 4 < E → E ≤ 8 → ppe_category E = "PPE Category 2") ∧
    (∀ E : ℚ, 8 < E → E ≤ 25 → ppe_category E = "PPE Category 3") ∧
    (∀ E : ℚ, 25 < E → E ≤ 40 → ppe_category E = "PPE Category 4") ∧
    (∀ E : ℚ, 40 < E → ppe_category E = "Above PPE Category 4 (Dangerous)") ∧
    ppe_category 1.2 = "Below arc-flash threshold (No PPE)" ∧
    ppe_category 40 = "PPE Category 4" ∧
    ppe_category 40.1 = "Above PPE Category 4 (Dangerous)" := by
  refine ⟨?_, ?_, ?_, ?_, ?_, ?_, ?_, by decide, by decide, by decide⟩
  · intro E F hEF
    unfold ppe_category
    split_ifs <;> first | decide | linarith
  · intro E h
    unfold ppe_category
    rw [if_pos h]
  · intro E h1 h2
    unfold ppe_category
    rw [if_neg (not_le.mpr h1), if_pos h2]
  · intro E h1 h2
    unfold ppe_category
    rw [if_neg (by linarith : ¬ E ≤ 1.2), if_neg (not_le.mpr h1), if_pos h2]
  · intro E h1 h2
    unfold ppe_category
    rw [if_neg (by linarith : ¬ E ≤ 1.2), if_neg (by linarith : ¬ E ≤ 4),
      if_neg (not_le.mpr h1), if_pos h2]
  · intro E h1 h2
    unfold ppe_category
    rw [if_neg (by linarith : ¬ E ≤ 1.2), if_neg (by linarith : ¬ E ≤ 4),
      if_neg (by linarith : ¬ E ≤ 8), if_neg (not_le.mpr h1), if_pos h2]
  · intro E h1
    unfold ppe_category
    rw [if_neg (by linarith : ¬ E ≤ 1.2), if_neg (by linarith : ¬ E ≤ 4),
      if_neg (by linarith : ¬ E ≤ 8), if_neg (by linarith : ¬ E ≤ 25),
      if_neg (not_le.mpr h1)]

/-- C6: reconstruction from an export payload always fails: for every DER,
`DERStorage.from_dict` applied to `DER.to_sim_payload` raises
KeyError: the payload stores the resource type under the key `type` while
reconstruction subscripts `data` with `der_type` before anything else. -/
theorem to_sim_payload_not_reconstructible (d : DER) :
    DERStorage.from_dict d.der_id d.to_sim_payload = .error (.keyMissing "der_type") :=
  rfl

/-- C7: `system_model/core.py` declares `Bus` without `zone` and `Line`
without `length`/`linecode`, while the loaders pass exactly those keyword
arguments, so in Python every bus and line construction raises TypeError
(`Transformer`, whose `tap` is declared, is constructible); the loaders'
blank/absent handling itself does default the optional fields to absent. -/
theorem core_dataclass_rejects_loader_kwargs :
    pyKwargCall coreBusFields busCallKwargs = .error (.unexpectedKwarg "zone") ∧
    pyKwargCall coreLineFields lineCallKwargs = .error (.unexpectedKwarg "length") ∧
    pyKwargCall coreTxFields txCallKwargs = .ok () ∧
    orNoneStr (some "") = none ∧ orNoneStr none = none ∧
    csvOptFloat (some "") = .ok none ∧ csvOptFloat none = .ok none ∧
    jsonOptFloat none = .ok none ∧ jsonOptFloat (some JVal.null) = .ok none := by
  decide

/-- C8: any enclosure string outside the closed set makes
`ieee1584_arcing_current` fail with the KeyError of the coefficient-dict
subscript, whatever the numeric arguments. -/
theorem arcing_current_unknown_enclosure (enclosure : String)
    (h : enclosure ∉ (["VCB", "HCB", "VOA", "HOA"] : List String))
    (I_bf V_kV gap_mm : ℝ) :
    ieee1584_arcing_current I_bf V_kV gap_mm enclosure = .error (.keyMissing enclosure) := by
  simp only [List.mem_cons, List.not_mem_nil, or_false, not_or] at h
  obtain ⟨h1, h2, h3, h4⟩ := h
  simp [ieee1584_arcing_current, COEFFS, List.lookup,
    beq_eq_false_iff_ne.mpr h1, beq_eq_false_iff_ne.mpr h2,
    beq_eq_false_iff_ne.mpr h3, beq_eq_false_iff_ne.mpr h4]

/-- Instance of `arcing_current_unknown_enclosure` at the tag `XML`. -/
theorem arcing_current_unknown_enclosure_witness :
    ieee1584_arcing_current 1 1 0 "XML" = .error (.keyMissing "XML") :=
  arcing_current_unknown_enclosure "XML" (by decide) 1 1 0

theorem lookup_isSome_iff {β : Type} (l : List (String × β)) (k : String) :
    (List.lookup k l).isSome = (l.map Prod.fst).contains k := by
  induction l with
  | nil => rfl
  | cons hd tl ih =>
    obtain ⟨a, b⟩ := hd
    cases hka : k == a <;>
      simp [List.lookup, List.contains_cons, hka, ih]

theorem missingFrom_eq_nil {required : List String} {row : Row}
    (h : ∀ k ∈ required, (row.map Prod.fst).contains k = true) :
    missingFrom required row = [] := by
  unfold missingFrom
  rw [List.filter_eq_nil_iff]
  intro k hk
  simp only [h k hk, Bool.not_true]
  exact Bool.false_ne_true

theorem getCell_error {row : Row} {k : String} {e : Err} (h : getCell row k = .error e) :
    e = .keyMissing k := by
  unfold getCell at h
  cases hl : List.lookup k row <;> rw [hl] at h
  · injection h with h
    exact h.symm
  · cases h

theorem pyFloatCore_error {orig : String} {sgn : ℚ} {body : List Char} {e : Err}
    (h : pyFloatCore orig sgn body = .error e) : e = .floatParse orig := by
  unfold pyFloatCore at h
  split at h
  · split at h
    · cases h
    · injection h with h
      exact h.symm
  · split at h
    · cases h
    · injection h with h
      exact h.symm
  · injection h with h
    exact h.symm

theorem pyFloat_error {s : String} {e : Err} (h : pyFloat s = .error e) : e = .floatParse s := by
  unfold pyFloat at h
  split at h
  · exact pyFloatCore_error h
  · split at h
    · exact pyFloatCore_error h
    · exact pyFloatCore_error h

theorem csvOptFloat_error {c : Option String} {e : Err} (h : csvOptFloat c = .error e) :
    ∃ s, e = .floatParse s := by
  cases c with
  | none => simp [csvOptFloat] at h
  | some s =>
    by_cases hs : s = ""
    · simp [csvOptFloat, hs] at h
    · simp only [csvOptFloat, hs, if_false] at h
      cases hp : pyFloat s with
      | error eP =>
        rw [hp] at h
        injection h with h
        exact ⟨s, h ▸ pyFloat_error hp⟩
      | ok q =>
        rw [hp] at h
        cases h

theorem finishLoad_ok {m M : SystemModel} (h : finishLoad m = .ok M) :
    m.validate = .ok () ∧ M = m := by
  unfold finishLoad at h
  cases hv : m.validate with
  | error e =>
    rw [hv] at h
    cases h
  | ok u =>
    cases u
    rw [hv] at h
    injection h with h
    exact ⟨rfl, h.symm⟩

theorem checkLines_ok_iff (bs : List (String × Bus)) (ls : List (String × Line)) :
    checkLines bs ls = .ok () ↔
      ∀ p ∈ ls, (bs.lookup p.2.from_bus).isSome ∧ (bs.lookup p.2.to_bus).isSome := by
  induction ls with
  | nil => simp [checkLines]
  | cons hd tl ih =>
    obtain ⟨k, l⟩ := hd
    by_cases h1 : (bs.lookup l.from_bus).isNone
    · simp only [checkLines]
      rw [if_pos h1]
      constructor
      · intro h
        cases h
      · intro h
        have := (h (k, l) (by simp)).1
        rw [Option.isNone_iff_eq_none.mp h1] at this
        cases this
    · by_cases h2 : (bs.lookup l.to_bus).isNone
      · simp only [checkLines]
        rw [if_neg h1, if_pos h2]
        constructor
        · intro h
          cases h
        · intro h
          have := (h (k, l) (by simp)).2
          rw [Option.isNone_iff_eq_none.mp h2] at this
          cases this
      · simp only [checkLines]
        rw [if_neg h1, if_neg h2, ih]
        constructor
        · intro h p hp
          rcases List.mem_cons.mp hp with hp | hp
          · subst hp
            exact ⟨Option.isSome_iff_ne_none.mpr
                (fun hn => h1 (Option.isNone_iff_eq_none.mpr hn)),
              Option.isSome_iff_ne_none.mpr
                (fun hn => h2 (Option.isNone_iff_eq_none.mpr hn))⟩
          · exact h p hp
        · intro h p hp
          exact h p (List.mem_cons_of_mem _ hp)

theorem checkTxs_ok_iff (bs : List (String × Bus)) (ts : List (String × Transformer)) :
    checkTxs bs ts = .ok () ↔
      ∀ p ∈ ts, (bs.lookup p.2.primary_bus).isSome ∧ (bs.lookup p.2.secondary_bus).isSome := by
  induction ts with
  | nil => simp [checkTxs]
  | cons hd tl ih =>
    obtain ⟨k, t⟩ := hd
    by_cases h1 : (bs.lookup t.primary_bus).isNone
    · simp only [checkTxs]
      rw [if_pos h1]
      constructor
      · intro h
        cases h
      · intro h
        have := (h (k, t) (by simp)).1
        rw [Option.isNone_iff_eq_none.mp h1] at this
        cases this
    · by_cases h2 : (bs.lookup t.secondary_bus).isNone
      · simp only [checkTxs]
        rw [if_neg h1, if_pos h2]
        constructor
        · intro h
          cases h
        · intro h
          have := (h (k, t) (by simp)).2
          rw [Option.isNone_iff_eq_none.mp h2] at this
          cases this
      · simp only [checkTxs]
        rw [if_neg h1, if_neg h2, ih]
        constructor
        · intro h p hp
          rcases List.mem_cons.mp hp with hp | hp
          · subst hp
            exact ⟨Option.isSome_iff_ne_none.mpr
                (fun hn => h1 (Option.isNone_iff_eq_none.mpr hn)),
              Option.isSome_iff_ne_none.mpr
                (fun hn => h2 (Option.isNone_iff_eq_none.mpr hn))⟩
          · exact h p hp
        · intro h p hp
          exact h p (List.mem_cons_of_mem _ hp)

theorem checkLines_error {bs : List (String × Bus)} {ls : List (String × Line)} {e : Err}
    (h : checkLines bs ls = .error e) :
    ∃ p ∈ ls,
      (e = Err.lineFromMissing p.2.line_id p.2.from_bus ∧ (bs.lookup p.2.from_bus).isNone) ∨
      (e = Err.lineToMissing p.2.line_id p.2.to_bus ∧ (bs.lookup p.2.to_bus).isNone) := by
  induction ls with
  | nil => cases h
  | cons hd tl ih =>
    obtain ⟨k, l⟩ := hd
    by_cases h1 : (bs.lookup l.from_bus).isNone
    · simp only [checkLines] at h
      rw [if_pos h1] at h
      injection h with h
      exact ⟨(k, l), by simp, Or.inl ⟨h.symm, h1⟩⟩
    · by_cases h2 : (bs.lookup l.to_bus).isNone
      · simp only [checkLines] at h
        rw [if_neg h1, if_pos h2] at h
        injection h with h
        exact ⟨(k, l), by simp, Or.inr ⟨h.symm, h2⟩⟩
      · simp only [checkLines] at h
        rw [if_neg h1, if_neg h2] at h
        obtain ⟨p, hp, hc⟩ := ih h
        exact ⟨p, List.mem_cons_of_mem _ hp, hc⟩

theorem checkTxs_error {bs : List (String × Bus)} {ts : List (String × Transformer)} {e : Err}
    (h : checkTxs bs ts = .error e) :
    ∃ p ∈ ts,
      (e = Err.txPrimaryMissing p.2.tx_id p.2.primary_bus ∧ (bs.lookup p.2.primary_bus).isNone) ∨
      (e = Err.txSecondaryMissing p.2.tx_id p.2.secondary_bus ∧
        (bs.lookup p.2.secondary_bus).isNone) := by
  induction ts with
  | nil => cases h
  | cons hd tl ih =>
    obtain ⟨k, t⟩ := hd
    by_cases h1 : (bs.lookup t.primary_bus).isNone
    · simp only [checkTxs] at h
      rw [if_pos h1] at h
      injection h with h
      exact ⟨(k, t), by simp, Or.inl ⟨h.symm, h1⟩⟩
    · by_cases h2 : (bs.lookup t.secondary_bus).isNone
      · simp only [checkTxs] at h
        rw [if_neg h1, if_pos h2] at h
        injection h with h
        exact ⟨(k, t), by simp, Or.inr ⟨h.symm, h2⟩⟩
      · simp only [checkTxs] at h
        rw [if_neg h1, if_neg h2] at h
        obtain ⟨p, hp, hc⟩ := ih h
        exact ⟨p, List.mem_cons_of_mem _ hp, hc⟩

theorem validate_ok_split (m : SystemModel) :
    m.validate = .ok () ↔
      (checkLines m.buses m.lines = .ok () ∧ checkTxs m.buses m.transformers = .ok ()) := by
  unfold SystemModel.validate
  cases hcl : checkLines m.buses m.lines with
  | error e => simp
  | ok u =>
    cases u
    simp

/-- C4: `validate` returns normally exactly when every line endpoint and
every transformer winding names a bus key; any failure carries the offending
entity id together with the dangling bus id, drawn from the model itself; and
each loader hands out only models whose `validate` returned normally (a
failing `validate` means no model reaches the caller).  The embedded
`validate` is a pure function of the model: it can return only `Unit`, so the
model is never mutated. -/
theorem validate_contract :
    (∀ m : SystemModel, (m.validate = .ok () ↔ refsOk m)) ∧
    (∀ (m : SystemModel) (e : Err), m.validate = .error e → e.namesDanglingRef m) ∧
    (∀ (f : CsvFile) (M : SystemModel), csvLoad f = .ok M → M.validate = .ok ()) ∧
    (∀ (d : JsonDoc) (M : SystemModel), jsonLoad d = .ok M → M.validate = .ok ()) := by
  refine ⟨?_, ?_, ?_, ?_⟩
  · intro m
    rw [validate_ok_split, checkLines_ok_iff, checkTxs_ok_iff]
    exact Iff.rfl
  · intro m e h
    unfold SystemModel.validate at h
    cases hcl : checkLines m.buses m.lines with
    | error eL =>
      rw [hcl] at h
      injection h with h
      subst h
      obtain ⟨p, hp, hc⟩ := checkLines_error hcl
      rcases hc with ⟨he, hn⟩ | ⟨he, hn⟩ <;> subst he <;>
        exact ⟨⟨p, hp, rfl, rfl⟩, hn⟩
    | ok u =>
      cases u
      rw [hcl] at h
      obtain ⟨p, hp, hc⟩ := checkTxs_error h
      rcases hc with ⟨he, hn⟩ | ⟨he, hn⟩ <;> subst he <;>
        exact ⟨⟨p, hp, rfl, rfl⟩, hn⟩
  · intro f M h
    unfold csvLoad at h
    by_cases ht : f.header.contains "type"
    · rw [if_pos ht] at h
      cases hr : csvLoadRows ⟨[], [], []⟩ f.rows with
      | error e =>
        rw [hr] at h
        cases h
      | ok m =>
        rw [hr] at h
        obtain ⟨hv, hM⟩ := finishLoad_ok h
        rw [hM]
        exact hv
    · rw [if_neg ht] at h
      cases h
  · intro d M h
    unfold jsonLoad at h
    cases h1 : loadFold jsonAddBus ⟨[], [], []⟩ (d.buses.getD []) with
    | error e =>
      rw [h1] at h
      cases h
    | ok m1 =>
      simp only [h1] at h
      cases h2 : loadFold jsonAddLine m1 (d.lines.getD []) with
      | error e =>
        simp only [h2] at h
        cases h
      | ok m2 =>
        simp only [h2] at h
        cases h3 : loadFold jsonAddTx m2 (d.transformers.getD []) with
        | error e =>
          simp only [h3] at h
          cases h
        | ok m3 =>
          simp only [h3] at h
          obtain ⟨hv, hM⟩ := finishLoad_ok h
          rw [hM]
          exact hv

/-- C10: the per-row required-field check of the CSV loader compares the
required names against the row's key set — which `csv.DictReader` makes the
header — never against cell contents: with all required columns in the
header, no missing-required-field error can arise for a row of that type,
and a blank required numeric cell fails later, inside `float()`. -/
theorem csv_required_check_is_header_only :
    ∀ (row : Row) (header : List String) (m : SystemModel),
      row.map Prod.fst = header →
      ((∀ k ∈ REQUIRED_BUS_FIELDS, k ∈ header) →
        (∀ ms, csvAddBus m row ≠ .error (.missingFields "Bus" ms)) ∧
        (List.lookup "kv" row = some "" → csvAddBus m row = .error (.floatParse ""))) ∧
      ((∀ k ∈ REQUIRED_LINE_FIELDS, k ∈ header) →
        (∀ ms, csvAddLine m row ≠ .error (.missingFields "Line" ms)) ∧
        (List.lookup "r_ohm" row = some "" → csvAddLine m row = .error (.floatParse ""))) := by
  intro row header m hkeys
  have hcont : ∀ k, k ∈ header → (row.map Prod.fst).contains k = true := by
    intro k hk
    rw [hkeys]
    exact List.elem_iff.mpr hk
  have hsome : ∀ k, k ∈ header → ∃ v, List.lookup k row = some v := by
    intro k hk
    have h1 := lookup_isSome_iff row k
    rw [hcont k hk] at h1
    exact Option.isSome_iff_exists.mp h1
  have hpf : pyFloat "" = .error (.floatParse "") := by decide
  refine ⟨fun hreq => ⟨?_, ?_⟩, fun hreq => ⟨?_, ?_⟩⟩
  · intro ms hcontra
    have hmiss : missingFrom REQUIRED_BUS_FIELDS row = [] :=
      missingFrom_eq_nil (fun k hk => hcont k (hreq k hk))
    unfold csvAddBus at hcontra
    rw [hmiss, if_neg (fun hc => hc rfl)] at hcontra
    cases hbid : getCell row "bus_id" with
    | error e =>
      simp only [hbid] at hcontra
      rw [getCell_error hbid] at hcontra
      simp at hcontra
    | ok bid =>
      simp only [hbid] at hcontra
      cases hkv : getCell row "kv" with
      | error e =>
        simp only [hkv] at hcontra
        rw [getCell_error hkv] at hcontra
        simp at hcontra
      | ok kvs =>
        simp only [hkv] at hcontra
        cases hq : pyFloat kvs with
        | error e =>
          simp only [hq] at hcontra
          rw [pyFloat_error hq] at hcontra
          simp at hcontra
        | ok q =>
          simp only [hq] at hcontra
          have hkb : pyKwargCall coreBusFields busCallKwargs =
              Except.error (Err.unexpectedKwarg "zone") := by decide
          rw [hkb] at hcontra
          simp at hcontra
  · intro hkv
    obtain ⟨v, hv⟩ := hsome "bus_id" (hreq "bus_id" (by simp [REQUIRED_BUS_FIELDS]))
    have hmiss : missingFrom REQUIRED_BUS_FIELDS row = [] :=
      missingFrom_eq_nil (fun k hk => hcont k (hreq k hk))
    unfold csvAddBus
    rw [hmiss, if_neg (fun hc => hc rfl)]
    simp only [getCell, hv, hkv, hpf]
  · intro ms hcontra
    have hmiss : missingFrom REQUIRED_LINE_FIELDS row = [] :=
      missingFrom_eq_nil (fun k hk => hcont k (hreq k hk))
    unfold csvAddLine at hcontra
    rw [hmiss, if_neg (fun hc => hc rfl)] at hcontra
    cases h1 : getCell row "line_id" with
    | error e =>
      simp only [h1] at hcontra
      rw [getCell_error h1] at hcontra
      simp at hcontra
    | ok lid =>
      simp only [h1] at hcontra
      cases h2 : getCell row "from_bus" with
      | error e =>
        simp only [h2] at hcontra
        rw [getCell_error h2] at hcontra
        simp at hcontra
      | ok fb =>
        simp only [h2] at hcontra
        cases h3 : getCell row "to_bus" with
        | error e =>
          simp only [h3] at hcontra
          rw [getCell_error h3] at hcontra
          simp at hcontra
        | ok tb =>
          simp only [h3] at hcontra
          cases h4 : getCell row "r_ohm" with
          | error e =>
            simp only [h4] at hcontra
            rw [getCell_error h4] at hcontra
            simp at hcontra
          | ok rs =>
            simp only [h4] at hcontra
            cases h5 : pyFloat rs with
            | error e =>
              simp only [h5] at hcontra
              rw [pyFloat_error h5] at hcontra
              simp at hcontra
            | ok r =>
              simp only [h5] at hcontra
              cases h6 : getCell row "x_ohm" with
              | error e =>
                simp only [h6] at hcontra
                rw [getCell_error h6] at hcontra
                simp at hcontra
              | ok xs =>
                simp only [h6] at hcontra
                cases h7 : pyFloat xs with
                | error e =>
                  simp only [h7] at hcontra
                  rw [pyFloat_error h7] at hcontra
                  simp at hcontra
                | ok x =>
                  simp only [h7] at hcontra
                  cases h8 : csvOptFloat (List.lookup "length" row) with
                  | error e =>
                    simp only [h8] at hcontra
                    obtain ⟨s, hs⟩ := csvOptFloat_error h8
                    rw [hs] at hcontra
                    simp at hcontra
                  | ok len =>
                    simp only [h8] at hcontra
                    have hkl : pyKwargCall coreLineFields lineCallKwargs =
                        Except.error (Err.unexpectedKwarg "length") := by decide
                    rw [hkl] at hcontra
                    simp at hcontra
  · intro hr
    obtain ⟨v1, hv1⟩ := hsome "line_id" (hreq "line_id" (by simp [REQUIRED_LINE_FIELDS]))
    obtain ⟨v2, hv2⟩ := hsome "from_bus" (hreq "from_bus" (by simp [REQUIRED_LINE_FIELDS]))
    obtain ⟨v3, hv3⟩ := hsome "to_bus" (hreq "to_bus" (by simp [REQUIRED_LINE_FIELDS]))
    have hmiss : missingFrom REQUIRED_LINE_FIELDS row = [] :=
      missingFrom_eq_nil (fun k hk => hcont k (hreq k hk))
    unfold csvAddLine
    rw [hmiss, if_neg (fun hc => hc rfl)]
    simp only [getCell, hv1, hv2, hv3, hr, hpf]

/-- Instance of `csv_required_check_is_header_only`: a bus row whose header
has all required columns but whose `kv` cell is blank fails in `float()`. -/
theorem csv_required_check_is_header_only_witness :
    csvAddBus ⟨[], [], []⟩ [("type", "bus"), ("bus_id", "b1"), ("kv", "")] =
      .error (.floatParse "") :=
  ((csv_required_check_is_header_only [("type", "bus"), ("bus_id", "b1"), ("kv", "")]
      ["type", "bus_id", "kv"] ⟨[], [], []⟩ rfl).1 (by decide)).2 rfl

/-! ## Results on loader agreement (CSV vs JSON) -/

/-- C5: the claimed CSV/JSON loader agreement cannot hold, because neither
loader can deliver a model at all: every bus and line construction site in
both loaders passes a keyword (`zone=`, resp. `length=`) that the core.py
dataclass does not declare, so `csvAddBus`, `csvAddLine`, `jsonAddBus` and
`jsonAddLine` never return a model, and on the minimal one-bus topology —
rendered identically in both formats — both loads raise the TypeError of the
unexpected keyword `zone` instead of returning structurally equal models. -/
theorem bus_line_construction_blocks_loaders :
    (∀ (m : SystemModel) (row : Row) (M : SystemModel), csvAddBus m row ≠ .ok M) ∧
    (∀ (m : SystemModel) (row : Row) (M : SystemModel), csvAddLine m row ≠ .ok M) ∧
    (∀ (m : SystemModel) (b : JObj) (M : SystemModel), jsonAddBus m b ≠ .ok M) ∧
    (∀ (m : SystemModel) (l : JObj) (M : SystemModel), jsonAddLine m l ≠ .ok M) ∧
    csvLoad oneBusCsvFile = .error (.unexpectedKwarg "zone") ∧
    jsonLoad oneBusJsonDoc = .error (.unexpectedKwarg "zone") := by
  have hkb : pyKwargCall coreBusFields busCallKwargs =
      Except.error (Err.unexpectedKwarg "zone") := by decide
  have hkl : pyKwargCall coreLineFields lineCallKwargs =
      Except.error (Err.unexpectedKwarg "length") := by decide
  refine ⟨?_, ?_, ?_, ?_, by decide, by decide⟩
  · intro m row M h
    unfold csvAddBus at h
    rw [hkb] at h
    repeat' split at h
    all_goals simp_all
  · intro m row M h
    unfold csvAddLine at h
    rw [hkl] at h
    repeat' split at h
    all_goals simp_all
  · intro m b M h
    unfold jsonAddBus at h
    rw [hkb] at h
    repeat' split at h
    all_goals simp_all
  · intro m l M h
    unfold jsonAddLine at h
    rw [hkl] at h
    repeat' split at h
    all_goals simp_all

end EvaluationResults
